import Mathlib

/-!
Verification of the shoalhavenScraper repository: a two-component system in
which an Express route (src/backend/index.js) forwards the result of a
Supabase query as JSON, and a React component (src/unnamed/part_000, App.jsx)
fetches that route once on mount and renders the rows as an HTML table.

The embedding below translates the two source files into pure Lean
definitions: the route handler becomes a function from the Supabase query
result to an HTTP response, and the React component becomes an initial
state, a state-update function for settlement of the fetch promise, and a
pure rendering function from the row collection to a table of cells.
-/

namespace Shoalhaven

/-- A DA Record as stored in the scrapedata table and listed in the data model of the spec: twelve fields, DA_Number being the sort key.  Documents may be
null or undefined in the database, which the frontend tests for truthiness,
so it is embedded as an Option: none models null/undefined/absent and
some s a string value (possibly empty, which is also JS-falsy). -/
structure DARecord where
  DA_Number : Int
  Detail_URL : String
  Description : String
  Submitted_Date : String
  Decision : String
  Categories : String
  Property_Address : String
  Applicant : String
  Progress : String
  Fees : String
  Documents : Option String
  Contact_Council : String
deriving Repr, DecidableEq

/-- JSON values, as far as this system serializes them. -/
inductive JsonValue where
  | str (s : String)
  | num (n : Int)
  | null
deriving Repr, DecidableEq

/-- The JSON object serialized for one DA Record by res.json, i.e. the
key/value pairs of the row object the route forwards. -/
def recordToJson (r : DARecord) : List (String × JsonValue) :=
  [ ("DA_Number", JsonValue.num r.DA_Number)
  , ("Detail_URL", JsonValue.str r.Detail_URL)
  , ("Description", JsonValue.str r.Description)
  , ("Submitted_Date", JsonValue.str r.Submitted_Date)
  , ("Decision", JsonValue.str r.Decision)
  , ("Categories", JsonValue.str r.Categories)
  , ("Property_Address", JsonValue.str r.Property_Address)
  , ("Applicant", JsonValue.str r.Applicant)
  , ("Progress", JsonValue.str r.Progress)
  , ("Fees", JsonValue.str r.Fees)
  , ("Documents", match r.Documents with
                  | some s => JsonValue.str s
                  | none => JsonValue.null)
  , ("Contact_Council", JsonValue.str r.Contact_Council)
  ]

/-- The twelve field names of the data model, in the order of the spec. -/
def fieldNames : List String :=
  [ "DA_Number", "Detail_URL", "Description", "Submitted_Date", "Decision"
  , "Categories", "Property_Address", "Applicant", "Progress", "Fees"
  , "Documents", "Contact_Council" ]

/- ## API Gateway (src/backend/index.js) -/

/-- The query the route builds on the Supabase client:
supabase.from(TABLE).select("*").order("DA_Number", ascending false). -/
structure QuerySpec where
  table : String
  select : String
  orderColumn : String
  ascending : Bool
deriving Repr, DecidableEq

/-- The one query issued by the GET /api/data handler. -/
def apiDataQuery : QuerySpec :=
  { table := "scrapedata", select := "*",
    orderColumn := "DA_Number", ascending := false }

/-- Result of awaiting the Supabase query: the client resolves with either
data and a null error, or a null data and an error carrying a message. -/
inductive QueryResult where
  | ok (data : List DARecord)
  | err (message : String)
deriving Repr, DecidableEq

/-- HTTP response bodies the route can produce: res.json(data) on the rows,
or res.json on an object with the single field error holding a string. -/
inductive HttpBody where
  | rows (rs : List DARecord)
  | errorObj (message : String)
deriving Repr, DecidableEq

/-- An HTTP response: status code and JSON body. -/
structure HttpResponse where
  status : Nat
  body : HttpBody
deriving Repr, DecidableEq

/-- An incoming HTTP request, as Express hands it to the handler.  The
handler of GET /api/data never reads it. -/
structure HttpRequest where
  path : String
  headers : List (String × String)
  rawBody : String
deriving Repr, DecidableEq

/-- The GET /api/data handler from src/backend/index.js: awaits the query,
and if error is set logs it and returns status 500 with an object holding
the message of the error under the field error; otherwise logs the data and
returns the rows as JSON (status 200, the Express default for res.json). -/
def handleApiData ( _req : HttpRequest) (qr : QueryResult) : HttpResponse :=
  match qr with
  | QueryResult.err message =>
      { status := 500, body := HttpBody.errorObj message }
  | QueryResult.ok data =>
      { status := 200, body := HttpBody.rows data }

/-- Server-side diagnostic log lines the handler emits (console.log of the
error on failure, console.log of the data on success). -/
inductive ServerLogLine where
  | loggedError (message : String)
  | loggedData (rs : List DARecord)
deriving Repr, DecidableEq

/-- The console.log lines emitted by one invocation of the handler. -/
def serverLogOf (qr : QueryResult) : List ServerLogLine :=
  match qr with
  | QueryResult.err message => [ServerLogLine.loggedError message]
  | QueryResult.ok data => [ServerLogLine.loggedData data]

/-- Rows of a response body, for stating which row data a response holds. -/
def bodyRows : HttpBody → List DARecord
  | HttpBody.rows rs => rs
  | HttpBody.errorObj _ => []

/-- A list of records ordered by DA_Number descending (the DA_Number of each element
is at least that of the next). -/
def sortedByDADesc : List DARecord → Prop :=
  List.Sorted (fun a b => b.DA_Number ≤ a.DA_Number)

instance : DecidablePred sortedByDADesc := fun l =>
  List.decidableSorted l

/- ## Presentation Client (src/unnamed/part_000, App.jsx) -/

/-- A rendered table cell: plain text, or an anchor with an href, a visible
label, and the target-blank/noreferrer attributes marking it external. -/
inductive Cell where
  | text (s : String)
  | link (href : String) (label : String) (external : Bool)
deriving Repr, DecidableEq

/-- JS truthiness of the Documents value: null/undefined and the empty
string are falsy, every non-empty string is truthy. -/
def jsTruthy : Option String → Bool
  | none => false
  | some s => !s.isEmpty

/-- The Documents cell of a row: a target-blank link labeled View Documents
when row.Documents is truthy and differs from the string Not available,
otherwise the literal text Not available. -/
def renderDocumentsCell (d : Option String) : Cell :=
  if jsTruthy d && d ≠ some "Not available" then
    Cell.link (d.getD "") "View Documents" true
  else
    Cell.text "Not available"

/-- The Detail_URL cell of a row: a target-blank link whose href and
visible text are both the Detail_URL of the row. -/
def renderDetailURLCell (u : String) : Cell :=
  Cell.link u u true

/-- One rendered table row, in the column order of the JSX. -/
def renderRow (row : DARecord) : List Cell :=
  [ Cell.text (toString row.DA_Number)
  , renderDetailURLCell row.Detail_URL
  , Cell.text row.Description
  , Cell.text row.Submitted_Date
  , Cell.text row.Decision
  , Cell.text row.Categories
  , Cell.text row.Property_Address
  , Cell.text row.Applicant
  , Cell.text row.Progress
  , Cell.text row.Fees
  , renderDocumentsCell row.Documents
  , Cell.text row.Contact_Council
  ]

/-- The table header labels, in the order of the JSX thead. -/
def headerLabels : List String :=
  [ "DA Number", "Detail URL", "Description", "Submitted Date", "Decision"
  , "Categories", "Property Address", "Applicant", "Progress", "Fees"
  , "Documents", "Contact Council" ]

/-- A rendered table: one header row of labels and a body of cell rows. -/
structure RenderedTable where
  header : List String
  dataRows : List (List Cell)
deriving Repr, DecidableEq

/-- The render output of the component as a function of the rows state:
the fixed thead and one tbody row per element of rows, via rows.map. -/
def renderTable (rows : List DARecord) : RenderedTable :=
  { header := headerLabels, dataRows := rows.map renderRow }

/-- Settlement of the axios promise: the then branch receives the response
data, the catch branch receives the error. -/
inductive FetchResult where
  | success (data : List DARecord)
  | failure (err : String)
deriving Repr, DecidableEq

/-- Client state: the rows useState value and the console.error channel. -/
structure ClientState where
  rows : List DARecord
  errorLog : List String
deriving Repr, DecidableEq

/-- The state at mount: useState([]) and nothing logged. -/
def initialState : ClientState :=
  { rows := [], errorLog := [] }

/-- Effect of the fetch settling on the client state: on success setRows
replaces rows with the response data; on failure console.error logs the
error and rows is untouched. -/
def applyFetchResult (s : ClientState) : FetchResult → ClientState
  | FetchResult.success data => { s with rows := data }
  | FetchResult.failure err => { s with errorLog := s.errorLog ++ [err] }

/-- The dependency array of the useEffect that issues the fetch, as a
function of the state of the component: it is the literal empty array. -/
def fetchEffectDeps (_s : ClientState) : List Int := []

/-- React effect semantics for a dependency-array effect: it runs on the
mount render (no previous deps) and on a later render exactly when the
dependency array changed since the previous render. -/
def effectRunsAt (prevDeps : Option (List Int)) (deps : List Int) : Bool :=
  match prevDeps with
  | none => true
  | some p => decide (p ≠ deps)

/-- Number of times the fetch effect fires over a sequence of renders with
the given states, carrying the dependency array of the previous render. -/
def countFetches : Option (List Int) → List ClientState → Nat
  | _, [] => 0
  | prev, s :: rest =>
      (if effectRunsAt prev (fetchEffectDeps s) then 1 else 0)
        + countFetches (some (fetchEffectDeps s)) rest

/- ## Concrete inputs used by counterexamples and witnesses -/

/-- A DA Record with a given DA_Number and unremarkable other fields. -/
def mkRec (n : Int) : DARecord :=
  { DA_Number := n, Detail_URL := "", Description := "",
    Submitted_Date := "", Decision := "", Categories := "",
    Property_Address := "", Applicant := "", Progress := "",
    Fees := "", Documents := none, Contact_Council := "" }

/-- A concrete incoming request to GET /api/data. -/
def sampleRequest : HttpRequest :=
  { path := "/api/data", headers := [], rawBody := "" }

/- ## Claims -/

/-- C1, counterexample: the claim says that if the Data Service returns
records numbered 5, 3, 9 the route outputs 9, 5, 3 regardless of the order
the service returned.  On the code, the handler forwards the data array of
the query result verbatim: on a query result holding records 5, 3, 9 in
that order, the route responds 200 with body exactly rows 5, 3, 9, which
differs from rows 9, 5, 3. -/
theorem apiData_does_not_reorder_counterexample :
    handleApiData sampleRequest (QueryResult.ok [mkRec 5, mkRec 3, mkRec 9])
      = { status := 200, body := HttpBody.rows [mkRec 5, mkRec 3, mkRec 9] }
    ∧ HttpBody.rows ([mkRec 5, mkRec 3, mkRec 9] : List DARecord)
      ≠ HttpBody.rows [mkRec 9, mkRec 5, mkRec 3] := by
  exact ⟨rfl, by decide⟩

/-- C1, amended: for every successful call, the route returns status 200
and the rows of the query result verbatim; its query requests descending
order on DA_Number from the Data Service, so the output is ordered by
DA_Number descending exactly when the response of the Data Service is (the
route itself does not reorder). -/
theorem apiData_success_forwards_service_order
    (req : HttpRequest) (data : List DARecord) :
    (handleApiData req (QueryResult.ok data)).status = 200
    ∧ (handleApiData req (QueryResult.ok data)).body = HttpBody.rows data
    ∧ apiDataQuery.orderColumn = "DA_Number"
    ∧ apiDataQuery.ascending = false
    ∧ (sortedByDADesc data →
        sortedByDADesc
          (bodyRows (handleApiData req (QueryResult.ok data)).body)) :=
  ⟨rfl, rfl, rfl, rfl, fun h => h⟩

/-- C1, witness: the amended theorem applied at a concrete sorted query
result with records numbered 9, 5, 3. -/
theorem apiData_success_forwards_service_order_witness :
    (handleApiData sampleRequest
        (QueryResult.ok [mkRec 9, mkRec 5, mkRec 3])).status = 200
    ∧ (handleApiData sampleRequest
        (QueryResult.ok [mkRec 9, mkRec 5, mkRec 3])).body
        = HttpBody.rows [mkRec 9, mkRec 5, mkRec 3]
    ∧ sortedByDADesc
        (bodyRows (handleApiData sampleRequest
          (QueryResult.ok [mkRec 9, mkRec 5, mkRec 3])).body) := by
  have h := apiData_success_forwards_service_order sampleRequest
    [mkRec 9, mkRec 5, mkRec 3]
  exact ⟨h.1, h.2.1, h.2.2.2.2 (by decide)⟩

/-- C2: for every call in which the Data Service query returns an error,
the route responds with status 500 and a body that is exactly an object
with the one field error holding the message of the error, and the
response carries no row data. -/
theorem apiData_error_gives_500
    (req : HttpRequest) (message : String) :
    handleApiData req (QueryResult.err message)
      = { status := 500, body := HttpBody.errorObj message }
    ∧ bodyRows (handleApiData req (QueryResult.err message)).body = [] :=
  ⟨rfl, rfl⟩

/-- C3: the Documents cell is a link with the fixed label View Documents
pointing at the Documents value exactly when that value is present
(JS-truthy, as the code tests it) and differs from the sentinel string
Not available; otherwise the cell is the literal text Not available. -/
theorem documents_cell_spec (d : Option String) :
    ((jsTruthy d = true ∧ d ≠ some "Not available") →
        renderDocumentsCell d = Cell.link (d.getD "") "View Documents" true
        ∧ some (d.getD "") = d)
    ∧ (¬(jsTruthy d = true ∧ d ≠ some "Not available") →
        renderDocumentsCell d = Cell.text "Not available") := by
  constructor
  · intro h
    match d with
    | none => exact absurd h.1 (by simp [jsTruthy])
    | some s =>
        refine ⟨?_, rfl⟩
        simp only [renderDocumentsCell, if_pos]
        rw [if_pos]
        simp only [Bool.and_eq_true, h.1, decide_eq_true_eq, true_and]
        exact h.2
  · intro h
    rw [renderDocumentsCell, if_neg]
    simp only [Bool.and_eq_true, decide_eq_true_eq]
    exact fun hc => h hc

/-- C3, witness: the characterization applied at a concrete URL value and
at the concrete sentinel value. -/
theorem documents_cell_spec_witness :
    renderDocumentsCell (some "https://example.com/doc.pdf")
      = Cell.link "https://example.com/doc.pdf" "View Documents" true
    ∧ renderDocumentsCell (some "Not available")
      = Cell.text "Not available" :=
  ⟨((documents_cell_spec (some "https://example.com/doc.pdf")).1
      (by decide)).1,
   (documents_cell_spec (some "Not available")).2 (by decide)⟩

/-- C4: on a failed fetch the row collection is exactly what it was before
the fetch, the error is appended to the console.error channel, and in the
initial-mount scenario (rows initially empty) the rendered table has the
fixed header row and zero data rows, with no error cell anywhere. -/
theorem fetch_failure_state_and_render (s : ClientState) (err : String) :
    (applyFetchResult s (FetchResult.failure err)).rows = s.rows
    ∧ (applyFetchResult s (FetchResult.failure err)).errorLog
        = s.errorLog ++ [err]
    ∧ (renderTable
        (applyFetchResult initialState (FetchResult.failure err)).rows).header
        = headerLabels
    ∧ (renderTable
        (applyFetchResult initialState (FetchResult.failure err)).rows).dataRows
        = [] :=
  ⟨rfl, rfl, rfl, rfl⟩

/-- C5: for every successful call, every element of the response array
serializes to a JSON object whose keys are exactly the twelve §3 field
names, and when the DA_Number values handed over by the Data Service are
unique (its documented invariant) the DA_Number values of the response
elements are unique as well. -/
theorem apiData_success_fields_and_unique
    (req : HttpRequest) (data : List DARecord)
    (hu : (data.map DARecord.DA_Number).Nodup) :
    (handleApiData req (QueryResult.ok data)).status = 200
    ∧ (∀ r ∈ bodyRows (handleApiData req (QueryResult.ok data)).body,
        (recordToJson r).map Prod.fst = fieldNames)
    ∧ fieldNames.length = 12
    ∧ ((bodyRows (handleApiData req (QueryResult.ok data)).body).map
        DARecord.DA_Number).Nodup :=
  ⟨rfl, fun _ _ => rfl, rfl, hu⟩

/-- C5, witness: the theorem applied to a concrete two-record query result
with distinct DA_Number values. -/
theorem apiData_success_fields_and_unique_witness :
    (handleApiData sampleRequest
        (QueryResult.ok [mkRec 9, mkRec 5])).status = 200
    ∧ (∀ r ∈ bodyRows (handleApiData sampleRequest
          (QueryResult.ok [mkRec 9, mkRec 5])).body,
        (recordToJson r).map Prod.fst = fieldNames)
    ∧ fieldNames.length = 12
    ∧ ((bodyRows (handleApiData sampleRequest
          (QueryResult.ok [mkRec 9, mkRec 5])).body).map
        DARecord.DA_Number).Nodup :=
  apiData_success_fields_and_unique sampleRequest [mkRec 9, mkRec 5]
    (by decide)

/-- C6: in every rendered row, the Detail_URL cell (second column) is an
external link whose visible text equals the Detail_URL value itself. -/
theorem detail_url_cell_text_is_url (row : DARecord) :
    (renderRow row)[1]? = some (Cell.link row.Detail_URL row.Detail_URL true) :=
  rfl

/-- C7: on a successful fetch the new row collection is the response array
verbatim, whatever the previous state was. -/
theorem fetch_success_replaces_rows_verbatim
    (s : ClientState) (data : List DARecord) :
    (applyFetchResult s (FetchResult.success data)).rows = data :=
  rfl

/-- C8: over any nonempty sequence of renders of the component, the fetch
effect fires exactly once, at the mount render: its dependency array is
constant (the literal empty array), so no state change re-triggers it. -/
theorem fetch_effect_fires_exactly_once
    (states : List ClientState) (h : states ≠ []) :
    countFetches none states = 1 := by
  have aux : ∀ l : List ClientState, countFetches (some []) l = 0 := by
    intro l
    induction l with
    | nil => rfl
    | cons x xs ih =>
        simp [countFetches, effectRunsAt, fetchEffectDeps, ih]
  match states with
  | [] => exact absurd rfl h
  | s :: rest =>
      simp [countFetches, effectRunsAt, fetchEffectDeps, aux rest]

/-- C8, witness: over the concrete render sequence of a mount render
followed by the render after a successful fetch, the effect fires once. -/
theorem fetch_effect_fires_exactly_once_witness :
    countFetches none
      [initialState, applyFetchResult initialState
        (FetchResult.success [mkRec 9])] = 1 :=
  fetch_effect_fires_exactly_once
    [initialState, applyFetchResult initialState
      (FetchResult.success [mkRec 9])]
    (by simp)

/-- C9: a Documents value that is null/undefined or the empty string (the
JS-falsy cases, not only the exact sentinel string) renders as the literal
text Not available, never as a link. -/
theorem falsy_documents_render_text :
    renderDocumentsCell none = Cell.text "Not available"
    ∧ renderDocumentsCell (some "") = Cell.text "Not available" := by
  exact ⟨rfl, rfl⟩

/-- C10: the handler is deterministic and input-free apart from the query
result: two requests with identical query results receive identical
responses whatever their request content, and the handler keeps no state
between calls (it is a pure function of the query result alone). -/
theorem apiData_deterministic
    (req1 req2 : HttpRequest) (qr : QueryResult) :
    handleApiData req1 qr = handleApiData req2 qr :=
  rfl

end Shoalhaven
